import Mathlib

/-!
Shallow embedding of `src/shootiggame2.py` (わり算シューティング, a division
shooting game built on pygame).

Modelling conventions:
* Python floats are modelled by `ℚ` (all gameplay arithmetic here is
  +, -, *, / and order comparisons on small values).
* `pygame.Rect` truncates float arguments toward zero when building integer
  rectangles; this is `toZero` below.
* Randomness (`random.choice`, `random.randint`, `random.uniform`,
  `random.shuffle`) is modelled by an explicit oracle structure `Oracle`
  whose draws are constrained by `Oracle.Valid` to the ranges the Python
  calls produce.  `random.choice(seq)` is modelled as indexing by
  `idx % seq.length`, which ranges over exactly the members of `seq`.
* The unbounded `while len(answers) < 4` distractor loop is modelled with
  explicit fuel (`Oracle.fuel`); executions of the Python program that
  terminate correspond exactly to oracles whose fuel suffices.
* The one-shot 450 ms pygame timer (`pygame.time.set_timer(USEREVENT+1, _)`)
  is modelled as the boolean `timer_pending`; delivery of the timer event is
  a separate step of the transition system (`Step.timer`).
-/

namespace Warizan

/-- Window width, from `WIDTH, HEIGHT = 900, 650`. -/
def WIDTH : Int := 900

/-- Window height. -/
def HEIGHT : Int := 650

/-- Number of correct answers needed to clear a level (`TARGET_CORRECT = 20`). -/
def TARGET_CORRECT : Nat := 20

/-- Minimum meteor fall speed in px/sec (`FALL_SPEED_MIN = 60`). -/
def FALL_SPEED_MIN : ℚ := 60

/-- Maximum meteor fall speed in px/sec (`FALL_SPEED_MAX = 140`). -/
def FALL_SPEED_MAX : ℚ := 140

/-- Python helper `clamp(v, a, b) = max(a, min(b, v))`. -/
def clamp (v a b : Int) : Int := max a (min b v)

/-- Truncation of a rational toward zero, as the C int cast pygame applies to
float coordinates when building a `Rect`. -/
def toZero (q : ℚ) : Int := if q < 0 then -((-q).floor) else q.floor

/-- An integer rectangle, as `pygame.Rect` (x, y, width, height). -/
structure PRect where
  x : Int
  y : Int
  w : Int
  h : Int
deriving DecidableEq

/-- `pygame.Rect.colliderect`: strict overlap test (rectangles sharing only an
edge do not collide). -/
def PRect.colliderect (a b : PRect) : Bool :=
  decide (a.x < b.x + b.w) && decide (b.x < a.x + a.w) &&
  decide (a.y < b.y + b.h) && decide (b.y < a.y + a.h)

/-- `pygame.Rect.collidepoint`: a point inside the rectangle; points on the
right or bottom edge are outside.  Mouse event positions are integers. -/
def PRect.collidepoint (r : PRect) (p : Int × Int) : Bool :=
  decide (r.x ≤ p.1) && decide (p.1 < r.x + r.w) &&
  decide (r.y ≤ p.2) && decide (p.2 < r.y + r.h)

/-- Random data consumed by one `ExplosionParticle.__init__`: a velocity
(`cos/sin(angle) * uniform(80,260)` in the source, left unconstrained here
since no property depends on it), a lifetime `uniform(0.5, 1.0)` and a size
`uniform(2, 6)`. -/
structure PRand where
  vx : ℚ
  vy : ℚ
  life : ℚ
  size : ℚ
deriving DecidableEq

/-- The random draws one game step may consume, made explicit.  Indexed draws
(`Nat → _`) model successive calls inside a loop. -/
structure Oracle where
  /-- models `random.choice(self.divisors)` as an index into the list -/
  divisorIdx : Nat
  /-- models `random.randint(1, 12)` on retry `i` of `next_question` -/
  quotientDraws : Nat → Nat
  /-- models `random.choice([-3,-2,-1,1,2,3,4])` as an index into that list -/
  offsetIdx : Nat → Nat
  /-- models `random.randint(1, max(3, quotient+3))` on distractor retry `i` -/
  rerollDraws : Nat → Nat
  /-- fuel bounding the `while len(answers) < 4` loop (terminating Python
  executions are exactly those with enough fuel) -/
  fuel : Nat
  /-- models `random.shuffle(answers)` -/
  shuffle : List Nat → List Nat
  /-- models `random.uniform(-20, 20)` per meteor lane -/
  jitter : Nat → ℚ
  /-- models `random.randint(-200, -60)` per meteor lane -/
  spawnY : Nat → Int
  /-- models `random.uniform(FALL_SPEED_MIN, FALL_SPEED_MAX)` per lane -/
  spawnSpeed : Nat → ℚ
  /-- models the draws of the `i`-th `ExplosionParticle` -/
  particleRand : Nat → PRand

/-- The ranges the corresponding Python random calls can actually produce. -/
def Oracle.Valid (o : Oracle) : Prop :=
  (∀ i, 1 ≤ o.quotientDraws i ∧ o.quotientDraws i ≤ 12) ∧
  (∀ i, 1 ≤ o.rerollDraws i) ∧
  (∀ l, (o.shuffle l).Perm l) ∧
  (∀ i, -20 ≤ o.jitter i ∧ o.jitter i ≤ 20) ∧
  (∀ i, -200 ≤ o.spawnY i ∧ o.spawnY i ≤ -60) ∧
  (∀ i, FALL_SPEED_MIN ≤ o.spawnSpeed i ∧ o.spawnSpeed i ≤ FALL_SPEED_MAX)

/-- `ExplosionParticle`: position, velocity, age/lifetime and size. -/
structure Particle where
  x : ℚ
  y : ℚ
  vx : ℚ
  vy : ℚ
  life : ℚ
  age : ℚ
  size : ℚ
deriving DecidableEq

/-- `ExplosionParticle.__init__(pos)`: starts at `pos` with age 0. -/
def mkParticle (pos : ℚ × ℚ) (r : PRand) : Particle :=
  { x := pos.1, y := pos.2, vx := r.vx, vy := r.vy,
    life := r.life, age := 0, size := r.size }

/-- `ExplosionParticle.update(dt)`. -/
def Particle.update (p : Particle) (dt : ℚ) : Particle :=
  { p with age := p.age + dt, x := p.x + p.vx * dt, y := p.y + p.vy * dt }

/-- `Meteor`: a falling labelled hit-box.  The Python object stores
`text = str(label)` and the hit test parses it back with `int(...)`; labels
are always numerals, so we keep the number itself. -/
structure Meteor where
  x : ℚ
  y : ℚ
  label : Nat
  speed : ℚ
  hit : Bool
deriving DecidableEq

/-- `Meteor.update(dt)`: fall by `speed * dt` (the cached rect recentres). -/
def Meteor.update (m : Meteor) (dt : ℚ) : Meteor :=
  { m with y := m.y + m.speed * dt }

/-- The meteor's hit-box: `METEOR_IMG` is 76 x 76 (radius 38) and the rect is
centred on the (int-truncated) position. -/
def Meteor.rect (m : Meteor) : PRect :=
  { x := toZero m.x - 38, y := toZero m.y - 38, w := 76, h := 76 }

/-- The beam's hit-box: `pygame.Rect(beam[0]-3, beam[1]-6, 6, 12)`. -/
def beamRect (b : ℚ × ℚ) : PRect :=
  { x := toZero (b.1 - 3), y := toZero (b.2 - 6), w := 6, h := 12 }

/-- `QuestionGenerator.set_difficulty`: the divisor pool of a tier.
`list(range(1,6))`, `list(range(6,10))`, `list(range(1,10))`. -/
def divisorsOf (d : Nat) : List Nat :=
  if d = 0 then List.range' 1 5
  else if d = 1 then List.range' 6 4
  else List.range' 1 9

/-- `QuestionGenerator.set_difficulty`: the dividend cap of a tier. -/
def maxDividendOf (d : Nat) : Nat :=
  if d = 0 then 20 else if d = 1 then 60 else 81

/-- The bounded retry loop inside `next_question`: on retry `i` sample
`quotient = randint(1,12)`, accept the first `dividend = divisor * quotient`
with `1 <= dividend <= max_dividend`; `none` when the 200 retries run out. -/
def nextQuestionLoop (divisor maxDiv : Nat) (draws : Nat → Nat) :
    Nat → Nat → Option (Nat × Nat × Nat)
  | _, 0 => none
  | i, fuel + 1 =>
    if 1 ≤ divisor * draws i ∧ divisor * draws i ≤ maxDiv then
      some (divisor * draws i, divisor, draws i)
    else nextQuestionLoop divisor maxDiv draws (i + 1) fuel

/-- The divisor `random.choice(self.divisors)` picks. -/
def chosenDivisor (d : Nat) (o : Oracle) : Nat :=
  (divisorsOf d).getD (o.divisorIdx % (divisorsOf d).length) 1

/-- `QuestionGenerator.next_question`: the retry loop, then the silent
fallback `quotient = 1`.  Returns `(dividend, divisor, quotient)`. -/
def next_question (d : Nat) (o : Oracle) : Nat × Nat × Nat :=
  match nextQuestionLoop (chosenDivisor d o) (maxDividendOf d) o.quotientDraws 0 200 with
  | some r => r
  | none => (chosenDivisor d o * 1, chosenDivisor d o, 1)

/-- The distractor offset pool `[-3,-2,-1,1,2,3,4]`. -/
def offsetPool : List Int := [-3, -2, -1, 1, 2, 3, 4]

/-- One candidate distractor: `quotient + random.choice(offsetPool)`,
re-rolled to `randint(1, max(3, quotient+3))` when it would drop below 1. -/
def nextCandidate (quotient : Nat) (off : Int) (reroll : Nat) : Nat :=
  if (quotient : Int) + off < 1 then reroll else ((quotient : Int) + off).toNat

/-- The candidate distractor proposed on attempt `i` of the collection loop. -/
def candAt (quotient : Nat) (o : Oracle) (i : Nat) : Nat :=
  nextCandidate quotient (offsetPool.getD (o.offsetIdx i % offsetPool.length) 1)
    (o.rerollDraws i)

/-- The `while len(answers) < 4` loop collecting distinct answers, with
explicit fuel; candidates already present are skipped. -/
def collectAnswersAux (quotient : Nat) (o : Oracle) :
    Nat → Nat → List Nat → List Nat
  | 0, _, acc => acc
  | fuel + 1, i, acc =>
    if acc.length < 4 then
      collectAnswersAux quotient o fuel (i + 1)
        (if candAt quotient o i ∈ acc then acc else acc ++ [candAt quotient o i])
    else acc

/-- The answer list of a question: starts at `[quotient]` and runs the
distractor loop. -/
def collectAnswers (quotient : Nat) (o : Oracle) : List Nat :=
  collectAnswersAux quotient o o.fuel 0 [quotient]

/-- Meteor placement for lane `i` onward: `x = int(margin + lane_w/2 +
i*lane_w + uniform(-20,20))`, `y = randint(-200,-60)`, speed
`uniform(FALL_SPEED_MIN, FALL_SPEED_MAX)`. -/
def mkMeteorsAux (o : Oracle) : Nat → List Nat → List Meteor
  | _, [] => []
  | i, a :: rest =>
    let margin : ℚ := 70
    let lane_w : ℚ := ((WIDTH : ℚ) - margin * 2) / 4
    { x := (toZero (margin + lane_w / 2 + (i : ℚ) * lane_w + o.jitter i) : ℚ)
      y := (o.spawnY i : ℚ)
      label := a
      speed := o.spawnSpeed i
      hit := false } :: mkMeteorsAux o (i + 1) rest

/-- The meteor batch for a (shuffled) answer list. -/
def mkMeteors (answers : List Nat) (o : Oracle) : List Meteor :=
  mkMeteorsAux o 0 answers

/-- `Game.state`: `'menu'`, `'playing'`, `'level_clear'`. -/
inductive Mode where
  | menu
  | playing
  | level_clear
deriving DecidableEq

/-- The mutable `Game` object.  `qgen_difficulty` is the difficulty stored in
`self.qgen` (the `QuestionGenerator` keeps its own copy, updated via
`set_difficulty`).  `timer_pending` is whether the one-shot `USEREVENT+1`
timer armed by `on_meteor_hit` is outstanding. -/
structure Game where
  mode : Mode
  difficulty : Nat
  qgen_difficulty : Nat
  correct_count : Nat
  total_attempts : Nat
  current_question : Nat × Nat × Nat
  meteors : List Meteor
  ship_x : ℚ
  ship_y : ℚ
  beam : Option (ℚ × ℚ)
  beam_speed : ℚ
  spawn_timer : ℚ
  question_in_progress : Bool
  particles : List Particle
  timer_pending : Bool
deriving DecidableEq

/-- `Game.make_new_question`: draw a question from the generator, collect the
four answers, shuffle them and lay out the meteor batch. -/
def Game.make_new_question (g : Game) (o : Oracle) : Game :=
  { g with
    current_question := next_question g.qgen_difficulty o
    meteors := mkMeteors
      (o.shuffle (collectAnswers (next_question g.qgen_difficulty o).2.2 o)) o
    question_in_progress := true }

/-- `Game.reset_play`: zero the counters, clear meteors and beam, recentre the
ship, then immediately `make_new_question` (the transient
`current_question = None` is overwritten before the method returns). -/
def Game.reset_play (g : Game) (o : Oracle) : Game :=
  ({ g with
    correct_count := 0
    total_attempts := 0
    meteors := []
    ship_x := ((WIDTH / 2 : Int) : ℚ)
    ship_y := (HEIGHT : ℚ) - 80
    beam := none
    beam_speed := 900
    spawn_timer := 0
    question_in_progress := false } : Game).make_new_question o

/-- The freshly constructed `Game` object before `__init__` runs
`reset_play`: menu state, difficulty 0, everything empty. -/
def gBase : Game :=
  { mode := Mode.menu, difficulty := 0, qgen_difficulty := 0,
    correct_count := 0, total_attempts := 0, current_question := (0, 0, 0),
    meteors := [], ship_x := 0, ship_y := 0, beam := none, beam_speed := 900,
    spawn_timer := 0, question_in_progress := false, particles := [],
    timer_pending := false }

/-- `Game.__init__`: menu state, difficulty 0, fresh generator, `reset_play`,
empty particle pool, no timer armed. -/
def Game.init (o : Oracle) : Game :=
  gBase.reset_play o

/-- `Game.fire_beam`: place the beam at the ship's nose, unconditionally. -/
def Game.fire_beam (g : Game) : Game :=
  { g with beam := some (g.ship_x, g.ship_y - 34) }

/-- `Game.on_meteor_hit`: compare the meteor's label with the question's
quotient, bump the counters, spawn 30 (correct) or 12 (wrong) particles at
the meteor, clear all the meteors and arm the 450 ms next-question timer. -/
def Game.on_meteor_hit (g : Game) (m : Meteor) (o : Oracle) : Game :=
  { g with
    total_attempts := g.total_attempts + 1
    correct_count := g.correct_count +
      (if m.label = g.current_question.2.2 then 1 else 0)
    particles := g.particles ++
      (List.range (if m.label = g.current_question.2.2 then 30 else 12)).map
        (fun i => mkParticle (m.x, m.y) (o.particleRand i))
    meteors := []
    timer_pending := true }

/-- First part of `Game.update`, run in every state: advance the particles and
drop the expired ones. -/
def Game.particlesPhase (g : Game) (dt : ℚ) : Game :=
  { g with particles :=
      (g.particles.map (fun p => p.update dt)).filter (fun p => decide (p.age < p.life)) }

/-- `Game.update` while playing, motion part: the beam rises by
`beam_speed * dt`, every meteor falls by its speed. -/
def Game.movePhase (g : Game) (dt : ℚ) : Game :=
  { g with
    beam := g.beam.map (fun b => (b.1, b.2 - g.beam_speed * dt))
    meteors := g.meteors.map (fun m => m.update dt) }

/-- The first meteor (in list order) whose rect overlaps the beam's rect, if
the beam exists: the collision scan of `Game.update`. -/
def Game.beamHit (g : Game) : Option Meteor :=
  match g.beam with
  | none => none
  | some b => g.meteors.find? (fun m => m.rect.colliderect (beamRect b))

/-- `Game.update` while playing, collision part: resolve the first overlapping
meteor and destroy the beam; otherwise destroy a beam that left the top of
the screen (`beam[1] < -40`). -/
def Game.collidePhase (g : Game) (o : Oracle) : Game :=
  match g.beam with
  | none => g
  | some b =>
    match g.meteors.find? (fun m => m.rect.colliderect (beamRect b)) with
    | some m => { g.on_meteor_hit m o with beam := none }
    | none => if b.2 < -40 then { g with beam := none } else g

/-- `Game.update` while playing, off-screen sweep: remove every meteor with
`y > HEIGHT + 60`; when that empties a non-empty meteor set, count one failed
attempt and immediately make a new question. -/
def Game.sweepPhase (g : Game) (o : Oracle) : Game :=
  if g.meteors ≠ [] ∧ g.meteors.filter (fun m => decide (m.y ≤ (HEIGHT : ℚ) + 60)) = [] then
    ({ g with
      meteors := g.meteors.filter (fun m => decide (m.y ≤ (HEIGHT : ℚ) + 60))
      total_attempts := g.total_attempts + 1 } : Game).make_new_question o
  else { g with meteors := g.meteors.filter (fun m => decide (m.y ≤ (HEIGHT : ℚ) + 60)) }

/-- `Game.update` while playing, final check: `correct_count >= TARGET_CORRECT`
moves the state to `level_clear`. -/
def Game.clearCheck (g : Game) : Game :=
  if TARGET_CORRECT ≤ g.correct_count then { g with mode := Mode.level_clear } else g

/-- `Game.update(dt)`: particles always; beam/meteor motion, collision, sweep
and the level-clear check only while playing. -/
def Game.update (g : Game) (dt : ℚ) (o : Oracle) : Game :=
  if (g.particlesPhase dt).mode = Mode.playing then
    ((((g.particlesPhase dt).movePhase dt).collidePhase o).sweepPhase o).clearCheck
  else g.particlesPhase dt

/-- The `MOUSEMOTION` branch of the main loop: while playing the ship tracks
the pointer x, clamped to `[40, WIDTH-40]`. -/
def Game.on_motion (g : Game) (mx : Int) : Game :=
  if g.mode = Mode.playing then
    { g with ship_x := ((clamp mx 40 (WIDTH - 40) : Int) : ℚ) }
  else g

/-- The `K_ESCAPE` branch of the main loop while playing: back to the menu
(in any other state escape quits the program, which has no successor). -/
def Game.on_escape (g : Game) : Game :=
  { g with mode := Mode.menu }

/-- The `USEREVENT+1` branch of the main loop: disarm the timer and
unconditionally make a new question, whatever the current state. -/
def Game.timerStep (g : Game) (o : Oracle) : Game :=
  { g.make_new_question o with timer_pending := false }

/-- The difficulty button rect `i` of the menu screen
(`(WIDTH//2 - 220 + i*220, 320, 200, 48)`), identical in `draw_buttons` and
`handle_click`. -/
def menuBtnRect (i : Nat) : PRect :=
  { x := WIDTH / 2 - 220 + (i : Int) * 220, y := 320, w := 200, h := 48 }

/-- The actions of the three level-clear buttons. -/
inductive CAction where
  | goNext
  | goRetry
  | goMenu
deriving DecidableEq

/-- The rect of the level-clear "next difficulty" button. -/
def nextBtnRect : PRect := { x := WIDTH / 2 - 200, y := HEIGHT / 2 + 20, w := 160, h := 50 }

/-- The rect of the level-clear "retry" button. -/
def retryBtnRect : PRect := { x := WIDTH / 2 - 20, y := HEIGHT / 2 + 20, w := 160, h := 50 }

/-- The rect of the level-clear "back to menu" button. -/
def backBtnRect : PRect := { x := WIDTH / 2 + 160, y := HEIGHT / 2 + 20, w := 160, h := 50 }

/-- The level-clear buttons with their rects, exactly as `draw_buttons` stores
them in `self._buttons` whenever the level-clear screen is drawn (the draw of
each frame precedes the event polls that consult the list, so at any click in
`level_clear` the stored list is this one). -/
def clearButtons : List (PRect × CAction) :=
  [(nextBtnRect, CAction.goNext), (retryBtnRect, CAction.goRetry), (backBtnRect, CAction.goMenu)]

/-- `Game.handle_click(pos, button)` for the primary button: difficulty
selection in the menu, unconditional `fire_beam` while playing, and the
next/retry/menu buttons on the level-clear screen (first hit rect wins). -/
def Game.handle_click (g : Game) (pos : Int × Int) (o : Oracle) : Game :=
  match g.mode with
  | Mode.menu =>
    match (List.range 3).find? (fun i => (menuBtnRect i).collidepoint pos) with
    | some i =>
      { ({ g with difficulty := i, qgen_difficulty := i } : Game).reset_play o with
        mode := Mode.playing }
    | none => g
  | Mode.playing => g.fire_beam
  | Mode.level_clear =>
    match clearButtons.find? (fun b => b.1.collidepoint pos) with
    | some (_, CAction.goNext) =>
      let g1 := if g.difficulty < 2 then
          { g with difficulty := g.difficulty + 1, qgen_difficulty := g.difficulty + 1 }
        else g
      { g1.reset_play o with mode := Mode.playing }
    | some (_, CAction.goRetry) =>
      { ({ g with qgen_difficulty := g.difficulty } : Game).reset_play o with
        mode := Mode.playing }
    | some (_, CAction.goMenu) => { g with mode := Mode.menu }
    | none => g

/-- One iteration of the main event/update loop, as a labelled transition:
pointer motion, a primary click, escape while playing, delivery of the armed
450 ms timer, or a frame tick running `update(dt)`. -/
inductive Step : Game → Game → Prop
  | motion (g : Game) (mx : Int) : Step g (g.on_motion mx)
  | click (g : Game) (pos : Int × Int) (o : Oracle) (ho : o.Valid) :
      Step g (g.handle_click pos o)
  | escape (g : Game) (h : g.mode = Mode.playing) : Step g g.on_escape
  | timer (g : Game) (o : Oracle) (ho : o.Valid) (h : g.timer_pending = true) :
      Step g (g.timerStep o)
  | frame (g : Game) (dt : ℚ) (hdt : 0 ≤ dt) (o : Oracle) (ho : o.Valid) :
      Step g (g.update dt o)

/-- States the program can be in: reachable from `Game.__init__` under some
valid randomness. -/
def Reachable (g : Game) : Prop :=
  ∃ o : Oracle, o.Valid ∧ Relation.ReflTransGen Step (Game.init o) g

/-- A concrete in-range oracle: divisor 1, every quotient draw 1 (question
(1,1,1)), distractor offsets +1, +2, +3 (answers [1,2,3,4]), identity
shuffle, no jitter, spawn height -60, fall speed 100. -/
def oA : Oracle :=
  { divisorIdx := 0
    quotientDraws := fun _ => 1
    offsetIdx := fun i => 3 + i
    rerollDraws := fun _ => 1
    fuel := 8
    shuffle := id
    jitter := fun _ => 0
    spawnY := fun _ => -60
    spawnSpeed := fun _ => 100
    particleRand := fun _ => { vx := 0, vy := 0, life := 1, size := 2 } }

/-- An in-range oracle whose divisor choice is 5 (index 4 of tier 0's pool)
and whose quotient draws are all 12, so every sampled dividend is 60. -/
def oA12 : Oracle :=
  { oA with divisorIdx := 4, quotientDraws := fun _ => 12 }

/-- Trace state: the game right after startup (menu, question (1,1,1),
meteors labelled 1,2,3,4 at x = 165/355/545/735, y = -60, speed 100). -/
def gT0 : Game := Game.init oA

/-- Trace state: after clicking the first difficulty button — playing. -/
def gT1 : Game := gT0.handle_click (240, 330) oA

/-- Trace state: after moving the pointer to x = 355 (lane 1's centre). -/
def gT2 : Game := gT1.on_motion 355

/-- Trace state: after a primary click — beam fired at (355, 536). -/
def gT3 : Game := gT2.handle_click (355, 400) oA

/-- Trace state: after a 0.6 s frame — the beam (now at y = -4) overlaps the
lane-1 meteor (label 2 ≠ quotient 1): a wrong hit; meteors cleared, the
450 ms timer armed. -/
def gT4 : Game := gT3.update (3 / 5) oA

/-- Trace state: after pressing escape — back in the menu with the post-hit
timer still pending. -/
def gT5 : Game := gT4.on_escape

/-- Trace state: after the pending timer fires while in the menu. -/
def gT6 : Game := gT5.timerStep oA

/-- Trace state (correct-hit branch): pointer moved to x = 165 (lane 0,
label 1 = quotient) instead. -/
def gS2 : Game := gT1.on_motion 165

/-- Trace state (correct-hit branch): beam fired at (165, 536). -/
def gS3 : Game := gS2.handle_click (165, 400) oA

/-- Trace state (correct-hit branch): after a 0.6 s frame the beam hits the
correct meteor — correct_count 0 → 1. -/
def gS4 : Game := gS3.update (3 / 5) oA

/-- Trace state (in-flight-beam branch): after a 0.1 s frame from `gT3` the
beam is in flight at (355, 446) and no collision has happened. -/
def gB4 : Game := gT3.update (1 / 10) oA

/-- A concrete playing state for the hit-resolution witness: question
8 ÷ 4 = 2, no particles yet. -/
def gQ : Game :=
  { gBase with mode := Mode.playing, current_question := (8, 4, 2) }

/-- A meteor carrying the correct answer of `gQ`. -/
def mQ : Meteor := { x := 355, y := 0, label := 2, speed := 100, hit := false }

/-- A concrete playing state for the off-screen sweep witness: a single
meteor already below the bottom boundary, no beam. -/
def gC6 : Game :=
  { gBase with
    mode := Mode.playing
    meteors := [{ x := 100, y := 800, label := 3, speed := 100, hit := false }] }

/-- A concrete level-clear state at difficulty 1 (generator in sync). -/
def gLC : Game :=
  { gBase with mode := Mode.level_clear, difficulty := 1, qgen_difficulty := 1 }

/-- A concrete playing state with correct_count already at the target. -/
def gHi : Game :=
  { gBase with mode := Mode.playing, correct_count := 20, total_attempts := 25 }

/-- The concrete oracle `oA` draws within the ranges of the Python calls. -/
theorem oA_valid : oA.Valid := by
  refine ⟨fun i => ⟨?_, ?_⟩, fun i => ?_, fun l => ?_, fun i => ⟨?_, ?_⟩,
    fun i => ⟨?_, ?_⟩, fun i => ⟨?_, ?_⟩⟩ <;>
    simp [oA, FALL_SPEED_MIN, FALL_SPEED_MAX] <;> norm_num

/-- The all-12 oracle `oA12` also draws within the Python ranges. -/
theorem oA12_valid : oA12.Valid := by
  refine ⟨fun i => ⟨?_, ?_⟩, fun i => ?_, fun l => ?_, fun i => ⟨?_, ?_⟩,
    fun i => ⟨?_, ?_⟩, fun i => ⟨?_, ?_⟩⟩ <;>
    simp [oA12, oA, FALL_SPEED_MIN, FALL_SPEED_MAX] <;> norm_num

/-- Indexing a nonempty list modulo its length lands in the list. -/
theorem getD_mod_mem {l : List Nat} (h : l ≠ []) (i dflt : Nat) :
    l.getD (i % l.length) dflt ∈ l := by
  have hlen : 0 < l.length := List.length_pos.mpr h
  have hlt : i % l.length < l.length := Nat.mod_lt _ hlen
  rw [List.getD_eq_getElem l dflt hlt]
  exact List.getElem_mem hlt

/-- Every tier's divisor pool is nonempty. -/
theorem divisorsOf_ne_nil (d : Nat) : divisorsOf d ≠ [] := by
  unfold divisorsOf
  split <;> [skip; split] <;> simp [List.range']

/-- Tier divisors all lie between 1 and 9. -/
theorem mem_divisorsOf_bounds {d x : Nat} (h : x ∈ divisorsOf d) : 1 ≤ x ∧ x ≤ 9 := by
  unfold divisorsOf at h
  split at h <;> [skip; split at h] <;> simp [List.range'] at h <;> omega

/-- Every tier's dividend cap is at least 20. -/
theorem maxDividendOf_ge (d : Nat) : 20 ≤ maxDividendOf d := by
  unfold maxDividendOf
  split <;> [skip; split] <;> omega

/-- The divisor `next_question` works with is in the tier's pool. -/
theorem chosenDivisor_mem (d : Nat) (o : Oracle) : chosenDivisor d o ∈ divisorsOf d :=
  getD_mod_mem (divisorsOf_ne_nil d) _ _

/-- What an accepted retry of the question loop returns: a product triple
with the requested divisor and an in-bound dividend. -/
theorem nextQuestionLoop_some {divisor maxDiv : Nat} {draws : Nat → Nat} :
    ∀ {fuel i : Nat} {r : Nat × Nat × Nat},
      nextQuestionLoop divisor maxDiv draws i fuel = some r →
      r.1 = r.2.1 * r.2.2 ∧ r.2.1 = divisor ∧ 1 ≤ r.1 ∧ r.1 ≤ maxDiv := by
  intro fuel
  induction fuel with
  | zero => intro i r h; simp [nextQuestionLoop] at h
  | succ n ih =>
    intro i r h
    rw [nextQuestionLoop] at h
    split at h
    · rename_i hc
      rw [Option.some.injEq] at h
      subst h
      exact ⟨rfl, rfl, hc.1, hc.2⟩
    · exact ih h

/-- C1: every triple (dividend, divisor, quotient) returned by
`next_question` satisfies dividend = divisor * quotient, has its divisor in
the tier's pool ([1,5] / [6,9] / [1,9]) and its dividend within the tier's
cap (20 / 60 / 81) — on the accepted-retry path and on the quotient = 1
fallback path alike. -/
theorem C1_next_question_in_tier (d : Nat) (o : Oracle) :
    (next_question d o).1 = (next_question d o).2.1 * (next_question d o).2.2 ∧
    (next_question d o).2.1 ∈ divisorsOf d ∧
    (next_question d o).1 ≤ maxDividendOf d := by
  unfold next_question
  cases hloop : nextQuestionLoop (chosenDivisor d o) (maxDividendOf d) o.quotientDraws 0 200 with
  | none =>
    have h9 := (mem_divisorsOf_bounds (chosenDivisor_mem d o)).2
    have h20 := maxDividendOf_ge d
    exact ⟨rfl, chosenDivisor_mem d o, by simpa using le_trans (le_trans h9 (by omega)) h20⟩
  | some r =>
    have h := nextQuestionLoop_some hloop
    exact ⟨h.1, h.2.1 ▸ chosenDivisor_mem d o, h.2.2.2⟩

/-- The quotient of any generated question is at least 1 (the accepted
dividend is at least 1, and the fallback quotient is literally 1). -/
theorem next_question_quotient_pos (d : Nat) (o : Oracle) :
    1 ≤ (next_question d o).2.2 := by
  unfold next_question
  cases hloop : nextQuestionLoop (chosenDivisor d o) (maxDividendOf d) o.quotientDraws 0 200 with
  | none => simp
  | some r =>
    dsimp only
    have h := nextQuestionLoop_some hloop
    rcases h with ⟨hprod, _, hpos, _⟩
    by_contra hq
    rw [Nat.not_le] at hq
    have h0 : r.2.2 = 0 := by omega
    rw [h0, Nat.mul_zero] at hprod
    omega

/-- The retry loop exhausts exactly when every draw it looks at yields an
out-of-bound dividend. -/
theorem nextQuestionLoop_none_iff (divisor maxDiv : Nat) (draws : Nat → Nat) :
    ∀ (fuel i : Nat), nextQuestionLoop divisor maxDiv draws i fuel = none ↔
      ∀ j, j < fuel →
        ¬(1 ≤ divisor * draws (i + j) ∧ divisor * draws (i + j) ≤ maxDiv) := by
  intro fuel
  induction fuel with
  | zero => intro i; simp [nextQuestionLoop]
  | succ n ih =>
    intro i
    rw [nextQuestionLoop]
    split
    · rename_i hc
      constructor
      · intro h; exact absurd h (by simp)
      · intro hall
        exact absurd hc (by simpa using hall 0 (Nat.succ_pos n))
    · rename_i hc
      rw [ih (i + 1)]
      constructor
      · intro h j hj
        cases j with
        | zero => simpa using hc
        | succ k =>
          have hk := h k (by omega)
          rw [show i + (k + 1) = i + 1 + k by omega]
          exact hk
      · intro h j hj
        have hk := h (j + 1) (by omega)
        rw [show i + 1 + j = i + (j + 1) by omega]
        exact hk

/-- C8 counterexample: with in-range draws (divisor 5 of tier 0, every
quotient draw 12, so every sampled dividend is 60 > 20) the 200-retry loop
exhausts and `next_question` does take the quotient = 1 fallback, returning
(5, 5, 1) — the fallback branch is not dead code. -/
theorem C8_counterexample :
    Oracle.Valid oA12 ∧
    nextQuestionLoop (chosenDivisor 0 oA12) (maxDividendOf 0) oA12.quotientDraws 0 200 = none ∧
    next_question 0 oA12 = (5, 5, 1) :=
  ⟨oA12_valid, by decide, by decide⟩

/-- C8 as amended: the fallback branch of `next_question` is reachable, not
dead — the retry loop exhausts exactly when each of its 200 sampled
quotients yields a dividend outside the tier bound (realizable by valid
draws, e.g. divisor 5 at tier 0 with every draw 12), and on exhaustion
`next_question` returns the quotient = 1 fallback triple. -/
theorem C8_fallback_reachable (d : Nat) (o : Oracle) :
    (nextQuestionLoop (chosenDivisor d o) (maxDividendOf d) o.quotientDraws 0 200 = none ↔
      ∀ j, j < 200 →
        ¬(1 ≤ chosenDivisor d o * o.quotientDraws j ∧
          chosenDivisor d o * o.quotientDraws j ≤ maxDividendOf d)) ∧
    (nextQuestionLoop (chosenDivisor d o) (maxDividendOf d) o.quotientDraws 0 200 = none →
      next_question d o = (chosenDivisor d o * 1, chosenDivisor d o, 1)) := by
  constructor
  · simpa using nextQuestionLoop_none_iff (chosenDivisor d o) (maxDividendOf d) o.quotientDraws 200 0
  · intro h
    unfold next_question
    rw [h]

/-- Witness for C8's amended theorem at the concrete all-12 oracle. -/
theorem C8_fallback_reachable_w :
    next_question 0 oA12 = (chosenDivisor 0 oA12 * 1, chosenDivisor 0 oA12, 1) :=
  (C8_fallback_reachable 0 oA12).2 (by decide)

/-- C2: hit resolution clears all meteors and arms the next-question timer;
a label matching the quotient bumps both counters by exactly 1 and spawns 30
particles, a mismatch bumps only total_attempts and spawns 12 particles. -/
theorem C2_hit_resolution (g : Game) (m : Meteor) (o : Oracle) :
    ((g.on_meteor_hit m o).meteors = [] ∧ (g.on_meteor_hit m o).timer_pending = true) ∧
    (m.label = g.current_question.2.2 →
      (g.on_meteor_hit m o).correct_count = g.correct_count + 1 ∧
      (g.on_meteor_hit m o).total_attempts = g.total_attempts + 1 ∧
      (g.on_meteor_hit m o).particles.length = g.particles.length + 30) ∧
    (m.label ≠ g.current_question.2.2 →
      (g.on_meteor_hit m o).correct_count = g.correct_count ∧
      (g.on_meteor_hit m o).total_attempts = g.total_attempts + 1 ∧
      (g.on_meteor_hit m o).particles.length = g.particles.length + 12) := by
  refine ⟨⟨rfl, rfl⟩, fun h => ?_, fun h => ?_⟩ <;>
    simp [Game.on_meteor_hit, h]

/-- Witness for C2 at a concrete correct hit (question 8 ÷ 4 = 2, meteor
labelled 2). -/
theorem C2_hit_resolution_w :
    (gQ.on_meteor_hit mQ oA).correct_count = gQ.correct_count + 1 ∧
    (gQ.on_meteor_hit mQ oA).total_attempts = gQ.total_attempts + 1 ∧
    (gQ.on_meteor_hit mQ oA).particles.length = gQ.particles.length + 30 :=
  (C2_hit_resolution gQ mQ oA).2.1 rfl

/-- Every candidate the distractor loop proposes is at least 1. -/
theorem candAt_pos {o : Oracle} (ho : o.Valid) (q i : Nat) : 1 ≤ candAt q o i := by
  unfold candAt nextCandidate
  split
  · exact ho.2.1 i
  · omega

/-- Loop invariant of the distractor collection: starting from a duplicate
free, all-positive accumulator containing the quotient, the loop keeps the
list duplicate free and all-positive and never changes how often the
quotient occurs. -/
theorem collectAnswersAux_inv (q : Nat) (o : Oracle) (ho : o.Valid) :
    ∀ (fuel i : Nat) (acc : List Nat), acc.Nodup → (∀ a ∈ acc, 1 ≤ a) → q ∈ acc →
      (collectAnswersAux q o fuel i acc).Nodup ∧
      (∀ a ∈ collectAnswersAux q o fuel i acc, 1 ≤ a) ∧
      (collectAnswersAux q o fuel i acc).count q = acc.count q := by
  intro fuel
  induction fuel with
  | zero =>
    intro i acc h1 h2 _
    rw [collectAnswersAux]
    exact ⟨h1, h2, rfl⟩
  | succ n ih =>
    intro i acc h1 h2 h3
    rw [collectAnswersAux]
    split
    · by_cases hc : candAt q o i ∈ acc
      · rw [if_pos hc]
        exact ih (i + 1) acc h1 h2 h3
      · rw [if_neg hc]
        have hnd : (acc ++ [candAt q o i]).Nodup := by
          refine List.Nodup.append h1 (List.nodup_singleton _) ?_
          intro a ha hb
          rw [List.mem_singleton] at hb
          exact hc (hb ▸ ha)
        have hpos : ∀ a ∈ acc ++ [candAt q o i], 1 ≤ a := by
          intro a ha
          rw [List.mem_append, List.mem_singleton] at ha
          rcases ha with ha | rfl
          · exact h2 a ha
          · exact candAt_pos ho q i
        have hmem : q ∈ acc ++ [candAt q o i] := List.mem_append_left _ h3
        have hne : candAt q o i ≠ q := fun he => hc (by rw [he]; exact h3)
        have hcount : (acc ++ [candAt q o i]).count q = acc.count q := by
          rw [List.count_append]
          simp [List.count_singleton, hne]
        obtain ⟨ih1, ih2, ih3⟩ := ih (i + 1) _ hnd hpos hmem
        exact ⟨ih1, ih2, ih3.trans hcount⟩
    · exact ⟨h1, h2, rfl⟩

/-- The answer list of a question with positive quotient: duplicate free,
all entries at least 1, and the quotient occurs exactly once. -/
theorem collectAnswers_spec (q : Nat) (o : Oracle) (ho : o.Valid) (hq : 1 ≤ q) :
    (collectAnswers q o).Nodup ∧ (∀ a ∈ collectAnswers q o, 1 ≤ a) ∧
    (collectAnswers q o).count q = 1 := by
  unfold collectAnswers
  obtain ⟨h1, h2, h3⟩ := collectAnswersAux_inv q o ho o.fuel 0 [q]
    (List.nodup_singleton q)
    (by intro a ha; rw [List.mem_singleton] at ha; exact ha ▸ hq)
    (List.mem_singleton_self q)
  refine ⟨h1, h2, ?_⟩
  rw [h3]
  simp

/-- The labels of a laid-out meteor batch are exactly the given answers. -/
theorem mkMeteorsAux_map_label (o : Oracle) :
    ∀ (l : List Nat) (i : Nat), (mkMeteorsAux o i l).map Meteor.label = l := by
  intro l
  induction l with
  | nil => intro i; rw [mkMeteorsAux]; rfl
  | cons a rest ih =>
    intro i
    rw [mkMeteorsAux, List.map_cons, ih (i + 1)]

/-- Every meteor of a freshly laid-out batch starts above the screen
(`y = randint(-200, -60)`), in particular above the bottom boundary. -/
theorem mkMeteorsAux_y_le {o : Oracle} (ho : o.Valid) :
    ∀ (l : List Nat) (i : Nat), ∀ m ∈ mkMeteorsAux o i l, m.y ≤ (HEIGHT : ℚ) + 60 := by
  intro l
  induction l with
  | nil => intro i m hm; rw [mkMeteorsAux] at hm; simp at hm
  | cons a rest ih =>
    intro i m hm
    rw [mkMeteorsAux, List.mem_cons] at hm
    rcases hm with rfl | hm
    · have hy : o.spawnY i ≤ -60 := (ho.2.2.2.2.1 i).2
      have hyq : ((o.spawnY i : Int) : ℚ) ≤ ((-60 : Int) : ℚ) := Int.cast_le.mpr hy
      simp only [HEIGHT]
      push_cast at hyq ⊢
      linarith
    · exact ih (i + 1) m hm

/-- C3: the new-question flow (whenever its collection loop completes, which
is the only way the Python loop produces a batch) creates exactly 4 meteors
whose labels are pairwise distinct, all at least 1, and contain the
question's quotient exactly once. -/
theorem C3_new_question_meteors (g : Game) (o : Oracle) (ho : o.Valid)
    (hfull : (collectAnswers (next_question g.qgen_difficulty o).2.2 o).length = 4) :
    (g.make_new_question o).meteors.length = 4 ∧
    ((g.make_new_question o).meteors.map Meteor.label).Nodup ∧
    (∀ m ∈ (g.make_new_question o).meteors, 1 ≤ m.label) ∧
    ((g.make_new_question o).meteors.map Meteor.label).count
      (g.make_new_question o).current_question.2.2 = 1 := by
  have hq := next_question_quotient_pos g.qgen_difficulty o
  obtain ⟨hnd, hpos, hcnt⟩ :=
    collectAnswers_spec (next_question g.qgen_difficulty o).2.2 o ho hq
  have hperm : (o.shuffle (collectAnswers (next_question g.qgen_difficulty o).2.2 o)).Perm
      (collectAnswers (next_question g.qgen_difficulty o).2.2 o) := ho.2.2.1 _
  have hlbl : (g.make_new_question o).meteors.map Meteor.label =
      o.shuffle (collectAnswers (next_question g.qgen_difficulty o).2.2 o) :=
    mkMeteorsAux_map_label o _ 0
  have hcq : (g.make_new_question o).current_question =
      next_question g.qgen_difficulty o := rfl
  refine ⟨?_, ?_, ?_, ?_⟩
  · have hlen := congrArg List.length hlbl
    rw [List.length_map] at hlen
    rw [hlen, hperm.length_eq, hfull]
  · rw [hlbl]
    exact hperm.nodup_iff.mpr hnd
  · intro m hm
    have hml : m.label ∈ (g.make_new_question o).meteors.map Meteor.label :=
      List.mem_map_of_mem _ hm
    rw [hlbl] at hml
    exact hpos _ (hperm.mem_iff.mp hml)
  · rw [hlbl, hcq, hperm.count_eq, hcnt]

/-- Witness for C3 at the concrete oracle `oA` (question (1,1,1), answers
[1,2,3,4]). -/
theorem C3_new_question_meteors_w : (gBase.make_new_question oA).meteors.length = 4 :=
  (C3_new_question_meteors gBase oA oA_valid (by decide)).1

/-- The concrete play session reaching `gT3`: select difficulty 0, aim at
lane 1, fire the beam. -/
theorem reach_gT3 : Relation.ReflTransGen Step (Game.init oA) gT3 :=
  Relation.ReflTransGen.tail
    (Relation.ReflTransGen.tail
      (Relation.ReflTransGen.tail Relation.ReflTransGen.refl
        (Step.click gT0 (240, 330) oA oA_valid))
      (Step.motion gT1 355))
    (Step.click gT2 (355, 400) oA oA_valid)

/-- Continuing the session to `gT5`: a 0.6 s frame resolves a (wrong) hit and
arms the timer, then escape returns to the menu. -/
theorem reach_gT5 : Relation.ReflTransGen Step (Game.init oA) gT5 :=
  Relation.ReflTransGen.tail
    (Relation.ReflTransGen.tail reach_gT3
      (Step.frame gT3 (3 / 5) (by norm_num) oA oA_valid))
    (Step.escape gT4 (by with_unfolding_all decide))

/-- C4 counterexample: `gB4` is a reachable playing state whose beam is in
flight at (355, 446), and a primary click there does NOT leave the beam
unchanged — `handle_click` replaces it with a fresh beam at the ship. -/
theorem C4_counterexample :
    Reachable gB4 ∧ gB4.mode = Mode.playing ∧ gB4.beam = some (355, 446) ∧
    (gB4.handle_click (200, 400) oA).beam ≠ gB4.beam := by
  refine ⟨⟨oA, oA_valid, ?_⟩, by with_unfolding_all decide, by with_unfolding_all decide,
    by with_unfolding_all decide⟩
  exact Relation.ReflTransGen.tail reach_gT3
    (Step.frame gT3 (1 / 10) (by norm_num) oA oA_valid)

/-- C4 as amended: a primary click while playing always fires — it runs
`fire_beam`, which unconditionally replaces whatever beam exists (in
flight or not) with a fresh beam at the ship's nose; at most one beam
exists only because the single beam slot is overwritten. -/
theorem C4_click_always_fires (g : Game) (pos : Int × Int) (o : Oracle)
    (h : g.mode = Mode.playing) :
    g.handle_click pos o = g.fire_beam ∧
    (g.handle_click pos o).beam = some (g.ship_x, g.ship_y - 34) := by
  unfold Game.handle_click
  rw [h]
  exact ⟨rfl, rfl⟩

/-- Witness for C4's amended theorem at a concrete playing state. -/
theorem C4_click_always_fires_w :
    gQ.handle_click (100, 100) oA = gQ.fire_beam ∧
    (gQ.handle_click (100, 100) oA).beam = some (gQ.ship_x, gQ.ship_y - 34) :=
  C4_click_always_fires gQ (100, 100) oA rfl

/-- C7 counterexample: `gT5` is a reachable menu state (entered by escape
right after a hit) whose post-hit timer is still pending; the timer event is
a possible next step there, and firing it creates a fresh 4-meteor batch
while the game stays in the menu — the deferred spawn does fire and does
mutate the state after the transition to menu. -/
theorem C7_counterexample :
    Reachable gT5 ∧ gT5.mode = Mode.menu ∧ gT5.timer_pending = true ∧
    gT5.meteors = [] ∧ Step gT5 (gT5.timerStep oA) ∧
    (gT5.timerStep oA).meteors.length = 4 ∧ (gT5.timerStep oA).mode = Mode.menu :=
  ⟨⟨oA, oA_valid, reach_gT5⟩, by with_unfolding_all decide, by with_unfolding_all decide,
    by with_unfolding_all decide, Step.timer gT5 oA oA_valid (by with_unfolding_all decide),
    by with_unfolding_all decide, by with_unfolding_all decide⟩

/-- C7 as amended: selecting the menu does not cancel the pending post-hit
timer; when the timer fires while in the menu state, the handler still runs
`make_new_question`, replacing the current question and spawning a fresh
meteor batch (the state stays menu and the timer is disarmed; the batch is
inert in the menu and overwritten by the next `reset_play`). -/
theorem C7_timer_fires_in_menu (g : Game) (o : Oracle) (h : g.mode = Mode.menu) :
    (g.timerStep o).mode = Mode.menu ∧
    (g.timerStep o).timer_pending = false ∧
    (g.timerStep o).current_question = next_question g.qgen_difficulty o ∧
    (g.timerStep o).meteors =
      mkMeteors (o.shuffle (collectAnswers (next_question g.qgen_difficulty o).2.2 o)) o := by
  refine ⟨?_, rfl, rfl, rfl⟩
  rw [show (g.timerStep o).mode = g.mode from rfl, h]

/-- Witness for C7's amended theorem at the reachable menu state `gT5`. -/
theorem C7_timer_fires_in_menu_w :
    (gT5.timerStep oA).mode = Mode.menu ∧
    (gT5.timerStep oA).timer_pending = false ∧
    (gT5.timerStep oA).current_question = next_question gT5.qgen_difficulty oA ∧
    (gT5.timerStep oA).meteors =
      mkMeteors (oA.shuffle (collectAnswers (next_question gT5.qgen_difficulty oA).2.2 oA)) oA :=
  C7_timer_fires_in_menu gT5 oA (by with_unfolding_all decide)

/-- When the collision scan finds nothing, the collision phase at most
destroys an off-screen beam. -/
theorem collidePhase_of_beamHit_none {g : Game} (o : Oracle) (h : g.beamHit = none) :
    g.collidePhase o = g ∨ g.collidePhase o = { g with beam := none } := by
  unfold Game.beamHit at h
  unfold Game.collidePhase
  cases hb : g.beam with
  | none => exact Or.inl rfl
  | some b =>
    rw [hb] at h
    dsimp only at h
    dsimp only
    split
    · rename_i m heq
      rw [h] at heq
      exact Option.noConfusion heq
    · split
      · exact Or.inr rfl
      · exact Or.inl rfl

/-- The level-clear check only ever touches the mode. -/
theorem clearCheck_fields (g : Game) :
    (g.clearCheck).meteors = g.meteors ∧
    (g.clearCheck).total_attempts = g.total_attempts ∧
    (g.clearCheck).current_question = g.current_question ∧
    (g.clearCheck).correct_count = g.correct_count := by
  unfold Game.clearCheck
  split <;> exact ⟨rfl, rfl, rfl, rfl⟩

/-- After the off-screen sweep no meteor is below the bottom boundary:
survivors were filtered by it and a freshly spawned batch starts above the
screen. -/
theorem sweepPhase_meteors_le {g : Game} (o : Oracle) (ho : o.Valid) :
    ∀ m ∈ (g.sweepPhase o).meteors, m.y ≤ (HEIGHT : ℚ) + 60 := by
  unfold Game.sweepPhase
  split
  · intro m hm
    exact mkMeteorsAux_y_le ho _ 0 m hm
  · intro m hm
    rw [List.mem_filter] at hm
    simpa using hm.2

/-- When every meteor is below the bottom boundary (and there is one), the
sweep counts a failed attempt and runs `make_new_question` at once. -/
theorem sweepPhase_spawn {g : Game} (o : Oracle) (hne : g.meteors ≠ [])
    (hall : ∀ m ∈ g.meteors, (HEIGHT : ℚ) + 60 < m.y) :
    g.sweepPhase o = ({ g with
      meteors := g.meteors.filter (fun m => decide (m.y ≤ (HEIGHT : ℚ) + 60))
      total_attempts := g.total_attempts + 1 } : Game).make_new_question o := by
  have hfil : g.meteors.filter (fun m => decide (m.y ≤ (HEIGHT : ℚ) + 60)) = [] := by
    rw [List.filter_eq_nil_iff]
    intro a ha
    simpa using (hall a ha).not_le
  unfold Game.sweepPhase
  rw [if_pos ⟨hne, hfil⟩]

/-- Field-wise consequences of a sweep that empties the meteor set. -/
theorem sweepPhase_spawn_fields {g : Game} (o : Oracle) (hne : g.meteors ≠ [])
    (hall : ∀ m ∈ g.meteors, (HEIGHT : ℚ) + 60 < m.y) :
    (g.sweepPhase o).total_attempts = g.total_attempts + 1 ∧
    (g.sweepPhase o).current_question = next_question g.qgen_difficulty o ∧
    (g.sweepPhase o).meteors =
      mkMeteors (o.shuffle (collectAnswers (next_question g.qgen_difficulty o).2.2 o)) o := by
  rw [sweepPhase_spawn o hne hall]
  exact ⟨rfl, rfl, rfl⟩

/-- C6: in a playing frame with no hit, the update removes every meteor whose
y exceeds the bottom boundary, and when that removal empties a non-empty
meteor set it counts exactly one failed attempt and spawns a new question
with a new meteor batch within the same update. -/
theorem C6_offscreen_sweep (g : Game) (dt : ℚ) (o : Oracle) (ho : o.Valid)
    (hmode : g.mode = Mode.playing) :
    (∀ m ∈ (g.update dt o).meteors, m.y ≤ (HEIGHT : ℚ) + 60) ∧
    (((g.particlesPhase dt).movePhase dt).beamHit = none →
     (((g.particlesPhase dt).movePhase dt).meteors ≠ [] ∧
      ∀ m ∈ ((g.particlesPhase dt).movePhase dt).meteors, (HEIGHT : ℚ) + 60 < m.y) →
      (g.update dt o).total_attempts = g.total_attempts + 1 ∧
      (g.update dt o).current_question = next_question g.qgen_difficulty o ∧
      (g.update dt o).meteors =
        mkMeteors (o.shuffle (collectAnswers (next_question g.qgen_difficulty o).2.2 o)) o) := by
  have hupd : g.update dt o =
      ((((g.particlesPhase dt).movePhase dt).collidePhase o).sweepPhase o).clearCheck := by
    unfold Game.update
    rw [if_pos (show (g.particlesPhase dt).mode = Mode.playing from hmode)]
  constructor
  · intro m hm
    rw [hupd, (clearCheck_fields _).1] at hm
    exact sweepPhase_meteors_le o ho m hm
  · rintro hnohit ⟨hne, hall⟩
    rcases collidePhase_of_beamHit_none o hnohit with hcp | hcp
    · obtain ⟨h1, h2, h3⟩ := sweepPhase_spawn_fields o hne hall
      rw [hupd, hcp, (clearCheck_fields _).2.1, (clearCheck_fields _).2.2.1,
        (clearCheck_fields _).1]
      exact ⟨h1, h2, h3⟩
    · obtain ⟨h1, h2, h3⟩ :=
        sweepPhase_spawn_fields
          (g := { (g.particlesPhase dt).movePhase dt with beam := none }) o hne hall
      rw [hupd, hcp, (clearCheck_fields _).2.1, (clearCheck_fields _).2.2.1,
        (clearCheck_fields _).1]
      exact ⟨h1, h2, h3⟩

/-- Witness for C6 at a concrete playing state whose single meteor sits at
y = 800, below the bottom boundary. -/
theorem C6_offscreen_sweep_w :
    (gC6.update 0 oA).total_attempts = gC6.total_attempts + 1 ∧
    (gC6.update 0 oA).current_question = next_question gC6.qgen_difficulty oA ∧
    (gC6.update 0 oA).meteors =
      mkMeteors (oA.shuffle (collectAnswers (next_question gC6.qgen_difficulty oA).2.2 oA)) oA :=
  (C6_offscreen_sweep gC6 0 oA oA_valid rfl).2 rfl
    (by with_unfolding_all decide)

/-- The next and retry buttons do not overlap: a point in the retry rect is
outside the next rect. -/
theorem retry_not_next {pos : Int × Int} (h : retryBtnRect.collidepoint pos = true) :
    nextBtnRect.collidepoint pos = false := by
  have e1 : nextBtnRect = ⟨250, 345, 160, 50⟩ := by with_unfolding_all decide
  have e2 : retryBtnRect = ⟨430, 345, 160, 50⟩ := by with_unfolding_all decide
  rw [e2] at h
  rw [e1]
  by_contra hne
  rw [Bool.not_eq_false] at hne
  simp only [PRect.collidepoint, Bool.and_eq_true, decide_eq_true_eq] at h hne
  omega

/-- C9: on the level-clear screen, clicking "next" bumps the difficulty by 1
capped at 2 and resets play state (counters zeroed, beam cleared, a fresh
question with its meteor batch drawn) before returning to playing; clicking
"retry" keeps the difficulty and performs the same reset and transition. -/
theorem C9_level_clear_buttons (g : Game) (pos : Int × Int) (o : Oracle)
    (hmode : g.mode = Mode.level_clear) (hsync : g.qgen_difficulty = g.difficulty)
    (hd : g.difficulty ≤ 2) :
    (nextBtnRect.collidepoint pos = true →
      (g.handle_click pos o).mode = Mode.playing ∧
      (g.handle_click pos o).difficulty = min (g.difficulty + 1) 2 ∧
      (g.handle_click pos o).correct_count = 0 ∧
      (g.handle_click pos o).total_attempts = 0 ∧
      (g.handle_click pos o).beam = none ∧
      (g.handle_click pos o).current_question = next_question (min (g.difficulty + 1) 2) o ∧
      (g.handle_click pos o).meteors = mkMeteors
        (o.shuffle (collectAnswers (next_question (min (g.difficulty + 1) 2) o).2.2 o)) o) ∧
    (retryBtnRect.collidepoint pos = true →
      (g.handle_click pos o).mode = Mode.playing ∧
      (g.handle_click pos o).difficulty = g.difficulty ∧
      (g.handle_click pos o).correct_count = 0 ∧
      (g.handle_click pos o).total_attempts = 0 ∧
      (g.handle_click pos o).beam = none ∧
      (g.handle_click pos o).current_question = next_question g.difficulty o ∧
      (g.handle_click pos o).meteors = mkMeteors
        (o.shuffle (collectAnswers (next_question g.difficulty o).2.2 o)) o) := by
  unfold Game.handle_click
  simp only [hmode]
  constructor
  · intro hn
    rw [clearButtons, List.find?_cons_of_pos _ (by simpa using hn)]
    dsimp only
    by_cases hlt : g.difficulty < 2
    · have hmin : min (g.difficulty + 1) 2 = g.difficulty + 1 := by omega
      rw [if_pos hlt, hmin]
      exact ⟨rfl, rfl, rfl, rfl, rfl, rfl, rfl⟩
    · have hd2 : g.difficulty = 2 := by omega
      have hmin : min (g.difficulty + 1) 2 = g.difficulty := by omega
      rw [if_neg hlt, hmin]
      refine ⟨rfl, rfl, rfl, rfl, rfl, ?_, ?_⟩
      · rw [show (g.reset_play o).current_question =
            next_question g.qgen_difficulty o from rfl, hsync]
      · rw [show (g.reset_play o).meteors = mkMeteors
            (o.shuffle (collectAnswers (next_question g.qgen_difficulty o).2.2 o)) o
            from rfl, hsync]
  · intro hr
    rw [clearButtons, List.find?_cons_of_neg _ (by simpa using retry_not_next hr),
      List.find?_cons_of_pos _ (by simpa using hr)]
    dsimp only
    exact ⟨rfl, rfl, rfl, rfl, rfl, rfl, rfl⟩

/-- Witness for C9 at a concrete level-clear state at difficulty 1, clicking
inside the "next" button rect. -/
theorem C9_level_clear_buttons_w :
    (gLC.handle_click (300, 350) oA).mode = Mode.playing ∧
    (gLC.handle_click (300, 350) oA).difficulty = min (gLC.difficulty + 1) 2 ∧
    (gLC.handle_click (300, 350) oA).correct_count = 0 ∧
    (gLC.handle_click (300, 350) oA).total_attempts = 0 ∧
    (gLC.handle_click (300, 350) oA).beam = none ∧
    (gLC.handle_click (300, 350) oA).current_question =
      next_question (min (gLC.difficulty + 1) 2) oA ∧
    (gLC.handle_click (300, 350) oA).meteors = mkMeteors
      (oA.shuffle (collectAnswers (next_question (min (gLC.difficulty + 1) 2) oA).2.2 oA)) oA :=
  (C9_level_clear_buttons gLC (300, 350) oA rfl rfl (by norm_num [gLC, gBase])).1
    (by with_unfolding_all decide)

/-- What one collision phase can do to the counters: nothing, or resolve one
hit (one attempt, possibly one correct) and clear the meteors. -/
theorem collidePhase_cases (x : Game) (o : Oracle) :
    ((x.collidePhase o).correct_count = x.correct_count ∧
     (x.collidePhase o).total_attempts = x.total_attempts ∧
     (x.collidePhase o).meteors = x.meteors) ∨
    ((x.collidePhase o).meteors = [] ∧
     (x.collidePhase o).total_attempts = x.total_attempts + 1 ∧
     ((x.collidePhase o).correct_count = x.correct_count ∨
      (x.collidePhase o).correct_count = x.correct_count + 1)) := by
  unfold Game.collidePhase
  cases x.beam with
  | none => exact Or.inl ⟨rfl, rfl, rfl⟩
  | some b =>
    dsimp only
    split
    · rename_i m heq
      right
      refine ⟨rfl, rfl, ?_⟩
      by_cases hl : m.label = x.current_question.2.2
      · right
        show x.correct_count + (if m.label = x.current_question.2.2 then 1 else 0) = _
        rw [if_pos hl]
      · left
        show x.correct_count + (if m.label = x.current_question.2.2 then 1 else 0) = _
        rw [if_neg hl]
        rfl
    · split
      · exact Or.inl ⟨rfl, rfl, rfl⟩
      · exact Or.inl ⟨rfl, rfl, rfl⟩

/-- What one sweep phase can do to the counters: correct_count never moves,
total_attempts gains at most one, and nothing happens on an empty set. -/
theorem sweepPhase_counters (x : Game) (o : Oracle) :
    (x.sweepPhase o).correct_count = x.correct_count ∧
    ((x.sweepPhase o).total_attempts = x.total_attempts ∨
     (x.sweepPhase o).total_attempts = x.total_attempts + 1) ∧
    (x.meteors = [] → (x.sweepPhase o).total_attempts = x.total_attempts) := by
  unfold Game.sweepPhase
  split
  · rename_i hcond
    exact ⟨rfl, Or.inr rfl, fun hm => absurd hm hcond.1⟩
  · exact ⟨rfl, Or.inl rfl, fun _ => rfl⟩

/-- What one frame update can do to the counters: nothing, one failed
attempt, or one correct answer with its attempt. -/
theorem update_counters (g : Game) (dt : ℚ) (o : Oracle) :
    ((g.update dt o).correct_count = g.correct_count ∧
     (g.update dt o).total_attempts = g.total_attempts) ∨
    ((g.update dt o).correct_count = g.correct_count ∧
     (g.update dt o).total_attempts = g.total_attempts + 1) ∨
    ((g.update dt o).correct_count = g.correct_count + 1 ∧
     (g.update dt o).total_attempts = g.total_attempts + 1) := by
  unfold Game.update
  split
  · set x := (g.particlesPhase dt).movePhase dt with hx
    have hxc : x.correct_count = g.correct_count := rfl
    have hxt : x.total_attempts = g.total_attempts := rfl
    obtain ⟨hsc, hst, hsk⟩ := sweepPhase_counters (x.collidePhase o) o
    obtain ⟨hcc1, hcc2⟩ := clearCheck_fields ((x.collidePhase o).sweepPhase o)
    rcases collidePhase_cases x o with ⟨h1, h2, _⟩ | ⟨h1, h2, h3⟩
    · rcases hst with hst | hst
      · left
        rw [hcc2.2.2, hsc, h1, hxc, hcc2.1, hst, h2, hxt]
        exact ⟨rfl, rfl⟩
      · right; left
        rw [hcc2.2.2, hsc, h1, hxc, hcc2.1, hst, h2, hxt]
        exact ⟨rfl, rfl⟩
    · have hst2 := hsk h1
      rcases h3 with h3 | h3
      · right; left
        rw [hcc2.2.2, hsc, h3, hxc, hcc2.1, hst2, h2, hxt]
        exact ⟨rfl, rfl⟩
      · right; right
        rw [hcc2.2.2, hsc, h3, hxc, hcc2.1, hst2, h2, hxt]
        exact ⟨rfl, rfl⟩
  · exact Or.inl ⟨rfl, rfl⟩

/-- What any single step can do to the counters: reset both to zero, leave
both alone, add one failed attempt, or add one correct answer with its
attempt. -/
theorem stepCounters {g g2 : Game} (h : Step g g2) :
    (g2.correct_count = 0 ∧ g2.total_attempts = 0) ∨
    (g2.correct_count = g.correct_count ∧ g2.total_attempts = g.total_attempts) ∨
    (g2.correct_count = g.correct_count ∧ g2.total_attempts = g.total_attempts + 1) ∨
    (g2.correct_count = g.correct_count + 1 ∧ g2.total_attempts = g.total_attempts + 1) := by
  cases h with
  | motion mx =>
    right; left
    unfold Game.on_motion
    split <;> exact ⟨rfl, rfl⟩
  | click pos o ho =>
    unfold Game.handle_click
    cases hm : g.mode <;> dsimp only
    · split
      · exact Or.inl ⟨rfl, rfl⟩
      · exact Or.inr (Or.inl ⟨rfl, rfl⟩)
    · exact Or.inr (Or.inl ⟨rfl, rfl⟩)
    · split
      · exact Or.inl ⟨rfl, rfl⟩
      · exact Or.inl ⟨rfl, rfl⟩
      · exact Or.inr (Or.inl ⟨rfl, rfl⟩)
      · exact Or.inr (Or.inl ⟨rfl, rfl⟩)
  | escape h => exact Or.inr (Or.inl ⟨rfl, rfl⟩)
  | timer o ho h => exact Or.inr (Or.inl ⟨rfl, rfl⟩)
  | frame dt hdt o ho => exact Or.inr (update_counters g dt o)

/-- Every step preserves the strict bound correct_count < target while
playing: the only way to raise the count is a frame update, and its final
check leaves `playing` only below the target. -/
theorem step_playing_lt {g g2 : Game} (h : Step g g2)
    (hg : g.mode = Mode.playing → g.correct_count < TARGET_CORRECT) :
    g2.mode = Mode.playing → g2.correct_count < TARGET_CORRECT := by
  have h20 : (0 : Nat) < TARGET_CORRECT := by norm_num [TARGET_CORRECT]
  cases h with
  | motion mx =>
    unfold Game.on_motion
    split
    · intro h2
      exact hg h2
    · exact hg
  | click pos o ho =>
    unfold Game.handle_click
    cases hm : g.mode <;> dsimp only
    · split
      · intro _
        exact h20
      · exact hg
    · intro _
      exact hg hm
    · split
      · intro _
        exact h20
      · intro _
        exact h20
      · intro h2
        exact absurd h2 (by simp)
      · intro h2
        rw [hm] at h2
        exact absurd h2 (by simp)
  | escape h =>
    intro h2
    exact absurd h2 (by simp [Game.on_escape])
  | timer o ho h =>
    intro h2
    exact hg h2
  | frame dt hdt o ho =>
    unfold Game.update
    split
    · unfold Game.clearCheck
      split
      · intro h2
        exact absurd h2 (by simp)
      · rename_i hc
        intro _
        omega
    · intro h2
      exact hg h2

/-- C5: the frame update moves `playing` to `level_clear` whenever
correct_count has reached the target of 20, and in consequence no reachable
playing state has correct_count above 20. -/
theorem C5_target_reached :
    (∀ (g : Game) (dt : ℚ) (o : Oracle), g.mode = Mode.playing →
      TARGET_CORRECT ≤ (g.update dt o).correct_count →
      (g.update dt o).mode = Mode.level_clear) ∧
    (∀ g : Game, Reachable g → g.mode = Mode.playing →
      g.correct_count ≤ TARGET_CORRECT) := by
  constructor
  · intro g dt o hmode hge
    unfold Game.update at hge ⊢
    rw [if_pos (show (g.particlesPhase dt).mode = Mode.playing from hmode)] at hge ⊢
    unfold Game.clearCheck at hge ⊢
    by_cases hc : TARGET_CORRECT ≤
        ((((g.particlesPhase dt).movePhase dt).collidePhase o).sweepPhase o).correct_count
    · rw [if_pos hc]
    · rw [if_neg hc] at hge
      exact absurd hge hc
  · rintro g ⟨o, ho, hr⟩
    have hlt : g.mode = Mode.playing → g.correct_count < TARGET_CORRECT := by
      induction hr with
      | refl =>
        intro h2
        simp [Game.init, Game.reset_play, Game.make_new_question, gBase] at h2
      | tail hs hstep ih => exact step_playing_lt hstep ih
    intro hp
    exact Nat.le_of_lt (hlt hp)

/-- Witness for C5: a playing state at the target transitions to level_clear
in one update, and the reachable playing state `gT1` is within the target. -/
theorem C5_target_reached_w :
    (gHi.update 0 oA).mode = Mode.level_clear ∧
    gT1.correct_count ≤ TARGET_CORRECT :=
  ⟨C5_target_reached.1 gHi 0 oA rfl (by with_unfolding_all decide),
   C5_target_reached.2 gT1
     ⟨oA, oA_valid, Relation.ReflTransGen.tail Relation.ReflTransGen.refl
       (Step.click gT0 (240, 330) oA oA_valid)⟩
     (by with_unfolding_all decide)⟩

/-- C10: in every reachable state correct_count is at most total_attempts;
moreover a single step either resets both counters to zero (a play reset) or
leaves both non-decreasing, and any step that raises correct_count raises it
by exactly 1 together with total_attempts. -/
theorem C10_counters_invariant :
    (∀ g : Game, Reachable g → g.correct_count ≤ g.total_attempts) ∧
    (∀ g g2 : Game, Step g g2 →
      (g2.correct_count = 0 ∧ g2.total_attempts = 0) ∨
      (g.correct_count ≤ g2.correct_count ∧ g.total_attempts ≤ g2.total_attempts)) ∧
    (∀ g g2 : Game, Step g g2 → g.correct_count < g2.correct_count →
      g2.correct_count = g.correct_count + 1 ∧
      g2.total_attempts = g.total_attempts + 1) := by
  refine ⟨?_, ?_, ?_⟩
  · rintro g ⟨o, ho, hr⟩
    induction hr with
    | refl =>
      have h1 : (Game.init o).correct_count = 0 := rfl
      have h2 : (Game.init o).total_attempts = 0 := rfl
      omega
    | tail hs hstep ih =>
      rcases stepCounters hstep with ⟨h1, h2⟩ | ⟨h1, h2⟩ | ⟨h1, h2⟩ | ⟨h1, h2⟩ <;> omega
  · intro g g2 hstep
    rcases stepCounters hstep with ⟨h1, h2⟩ | ⟨h1, h2⟩ | ⟨h1, h2⟩ | ⟨h1, h2⟩
    · exact Or.inl ⟨h1, h2⟩
    all_goals exact Or.inr (by omega)
  · intro g g2 hstep hlt
    rcases stepCounters hstep with ⟨h1, h2⟩ | ⟨h1, h2⟩ | ⟨h1, h2⟩ | ⟨h1, h2⟩ <;> omega

/-- Witness for C10 at concrete steps: the initial state, a difficulty click
(reset), and the correct-hit frame from `gS3` to `gS4`. -/
theorem C10_counters_invariant_w :
    (Game.init oA).correct_count ≤ (Game.init oA).total_attempts ∧
    ((gT1.correct_count = 0 ∧ gT1.total_attempts = 0) ∨
     (gT0.correct_count ≤ gT1.correct_count ∧ gT0.total_attempts ≤ gT1.total_attempts)) ∧
    (gS4.correct_count = gS3.correct_count + 1 ∧
     gS4.total_attempts = gS3.total_attempts + 1) :=
  ⟨C10_counters_invariant.1 (Game.init oA) ⟨oA, oA_valid, Relation.ReflTransGen.refl⟩,
   C10_counters_invariant.2.1 gT0 gT1 (Step.click gT0 (240, 330) oA oA_valid),
   C10_counters_invariant.2.2 gS3 gS4
     (Step.frame gS3 (3 / 5) (by norm_num) oA oA_valid)
     (by with_unfolding_all decide)⟩

end Warizan
